import Mathlib

/-!
# Verification of the TR-Sepet crawl-and-consolidate pipeline

Shallow embedding of the parts of the TR-Sepet scraper that the spec's
claims are about, together with theorems settling each claim.

The embedded functions follow the Python source:

* `sepet_app/scraper/shop_scrapers/utility.py` — `create_sqlite_from_csvs`
  (the snapshot-store merge) and the `ProductClassifier` of
  `sepet_app/scraper/src/utilities/classifier.py`;
* `sepet_app/scraper/run_scraping.py` — `scrape_categories`, `save_to_csv`,
  `combine_and_filter_csvs`, `main`;
* `sepet_app/scrapers/scrape_runner.py` — `combine_and_deduplicate_csvs`;
* `sepet_app/scraper/shop_scrapers/a101.py` — the scroll-until-stable loop in
  `A101Scraper.search` and `A101Scraper.get_prices`;
* `sepet_app/scraper/shop_scrapers/migros.py` — `MigrosScraper.get_prices`;
* `sepet_app/scraper/shop_scrapers/advanced_base.py` and
  `sepet_app/scraper/src/shops/onurmarket.py` — anti-bot scraper
  initialisation.

Machine reals of the source (`float`) are modelled as `ℚ`; CSV rows are
lists of field strings; the Python "attribute never assigned" state is
modelled with `Option`/`Bool` flags, and a raising Python call is an
`Except` value.
-/

namespace Sepet

/-- A CSV/table row: the list of its column values, compared
byte-for-byte (pandas `drop_duplicates()` with no subset compares whole
rows). -/
abbrev Row : Type := List String

/-! ## Snapshot-store merge (`create_sqlite_from_csvs`, utility.py)

For an existing shop table the source does:

    existing_df   = pd.read_sql_query(f'SELECT * FROM "{shop_name}"', con)
    combined_df   = pd.concat([existing_df, df], ignore_index=True)
    deduplicated_df = combined_df.drop_duplicates().reset_index(drop=True)
    deduplicated_df.to_sql(shop_name, con, if_exists='replace', index=False)
-/

/-- pandas `drop_duplicates()` with `keep='first'` (the default): walk the
rows in order, keep a row iff an equal row has not been kept before.
`seen` accumulates the rows already kept. -/
def dropDupAux (seen : List Row) : List Row → List Row
  | [] => []
  | r :: rs => if r ∈ seen then dropDupAux seen rs else r :: dropDupAux (r :: seen) rs

/-- pandas `combined_df.drop_duplicates()` on whole rows. -/
def dropDuplicates (l : List Row) : List Row := dropDupAux [] l

/-- The merge step of `create_sqlite_from_csvs` for a shop whose table
already exists: concatenate the stored rows with the new consolidated
dataset and drop exact-duplicate rows, keeping first occurrences. -/
def mergeTable (existing new : List Row) : List Row :=
  dropDuplicates (existing ++ new)

/-! ## How the merged table is written (`to_sql(..., if_exists='replace')`)

The source writes the merged table with
`deduplicated_df.to_sql(shop_name, con, if_exists='replace', index=False)`,
which operates in place on the one database file: it drops the existing
table, creates it afresh and inserts the merged rows.  There is no write to
a temporary location followed by a rename.  We model the write as the
sequence of primitive database operations it executes; a crash mid-write
is the execution of a proper prefix of that sequence. -/

/-- A primitive operation on the snapshot store, as issued by pandas
`to_sql(..., if_exists='replace')`. -/
inductive DbOp : Type
  | dropTable (name : String)
  | createTable (name : String)
  | insertRows (name : String) (rows : List Row)

/-- The snapshot store: each table name maps to its rows, `none` when the
table does not exist. -/
def Store : Type := String → Option (List Row)

/-- Executing one primitive operation against the store. Inserting into an
absent table leaves it absent (the statement would fail). -/
def applyOp (st : Store) : DbOp → Store
  | .dropTable n => fun m => if m = n then none else st m
  | .createTable n => fun m => if m = n then some [] else st m
  | .insertRows n rows => fun m => if m = n then (st n).map (· ++ rows) else st m

/-- Executing a sequence of operations in order. -/
def applyOps (ops : List DbOp) (st : Store) : Store :=
  ops.foldl applyOp st

/-- The operation sequence `create_sqlite_from_csvs` issues for a shop whose
table already holds `existing` when merging the new dataset `new`:
`to_sql(shop_name, con, if_exists='replace')` on the deduplicated
concatenation — drop, recreate, insert, all in place. -/
def mergeOps (name : String) (existing new : List Row) : List DbOp :=
  [.dropTable name, .createTable name, .insertRows name (mergeTable existing new)]

/-- A concrete one-table store used to exhibit crash behaviour: shop table
`A101` holds the single row `["x"]`. -/
def exStore : Store := fun n => if n = "A101" then some [["x"]] else none

/-! ## Per-day consolidation of one shop's per-category files

Two generations of the consolidator exist in the source:

* `combine_and_filter_csvs` (`sepet_app/scraper/run_scraping.py`), the one
  invoked by the current pipeline's `main`: reads every per-category CSV,
  concatenates the loaded dataframes and writes the concatenation to
  `combined.csv`.  It performs no deduplication.
* `combine_and_deduplicate_csvs` (`sepet_app/scrapers/scrape_runner.py`):
  reads, concatenates, then `drop_duplicates(subset=['product_id'],
  keep='first')` — in that generation's schema the `product_id` column
  holds the site-specific scraped product id taken from the item URL.

A consolidation input is the list of successfully loaded per-category
dataframes; a row is its scraped-product-id key paired with the remaining
field values. -/

/-- A product row keyed by its scraped product id: the id column's value
paired with the remaining column values. -/
abbrev PRow : Type := String × List String

/-- pandas `drop_duplicates(subset=['product_id'], keep='first')`: keep a
row iff no row with the same key has been kept before. `seen` holds the
keys already kept. -/
def dedupByKeyAux (seen : List String) : List PRow → List PRow
  | [] => []
  | r :: rs =>
      if r.1 ∈ seen then dedupByKeyAux seen rs
      else r :: dedupByKeyAux (r.1 :: seen) rs

/-- Key-based deduplication keeping first occurrences. -/
def dedupByKey (l : List PRow) : List PRow := dedupByKeyAux [] l

/-- Function `combine_and_filter_csvs` of `run_scraping.py` on the loaded
per-category dataframes: returns nothing when no dataframe was loaded,
otherwise the plain concatenation (the function writes `combined.csv`
without dropping any duplicates). -/
def combineAndFilterCsvs (files : List (List PRow)) : Option (List PRow) :=
  if files.isEmpty then none else some files.flatten

/-- Function `combine_and_deduplicate_csvs` of `scrapers/scrape_runner.py`:
concatenate the loaded dataframes, then deduplicate by the scraped
product-id column keeping the first occurrence. -/
def combineAndDeduplicateCsvs (files : List (List PRow)) : Option (List PRow) :=
  if files.isEmpty then none else some (dedupByKey files.flatten)

/-- The row of the end-to-end dedupe scenario: scraped product id `p-123`
with some fixed other fields. -/
def pRow123 : PRow :=
  ("p-123", ["2025-01-01 10:00:00", "Süt 1L", "3", "7", "12", "10,5", "10,5"])

/-! ## Scroll-until-stable (`A101Scraper.search`, a101.py)

The source loop:

    last_article_count = 0
    while True:
        current_articles = self.driver.find_elements(By.TAG_NAME, 'article')
        article_count = len(current_articles)
        if article_count == last_article_count:
            break
        last_article_count = article_count
        self.driver.execute_script(...scroll...)
        time.sleep(2)

A page is modelled by the poll sequence `counts : ℕ → ℕ`: `counts i` is the
number of rendered result elements `find_elements` reports at the i-th
poll.  `runScroll counts fuel i last` runs the loop from poll `i` with the
remembered count `last`, allowed at most `fuel` further polls; `none` means
the loop was still running when the fuel ran out (the source loop itself
has no iteration bound — the fuel is only our device for observing
non-termination).  The loop starts as `runScroll counts fuel 0 0`. -/

/-- The `while True` scroll loop of `A101Scraper.search`, observed for at
most `fuel` polls. -/
def runScroll (counts : ℕ → ℕ) : ℕ → ℕ → ℕ → Option ℕ
  | 0, _, _ => none
  | fuel + 1, i, last =>
      if counts i = last then some (counts i)
      else runScroll counts fuel (i + 1) (counts i)

/-- The value of `last_article_count` when the i-th poll is compared: `0`
before the first poll, afterwards the previous poll's count. -/
def prevCount (counts : ℕ → ℕ) (i : ℕ) : ℕ :=
  if i = 0 then 0 else counts (i - 1)

/-- The mock page of the spec's scroll-termination scenario: successive
polls report `[0, 5, 12, 12]` rendered elements (then the page stays at
12). -/
def counts0512 : ℕ → ℕ := fun i => [0, 5, 12, 12].getD i 12

/-- The same mock page with the initial empty poll removed: successive
polls report `[5, 12, 12, ...]`. -/
def counts512 : ℕ → ℕ := fun i => [5, 12, 12].getD i 12

/-- A page whose rendered-element count strictly grows on every poll and
never stabilises. -/
def succCounts : ℕ → ℕ := fun n => n + 1

/-! ## Persisting per-category results (`save_to_csv`, `scrape_categories`)

`save_to_csv(shop_name, df, filepath, filename, today_str)` returns
immediately when `len(df) < 1`; otherwise it creates
`filepath/shop_name/today_str/` (`mkdir(parents=True, exist_ok=True)`) and
writes the dataframe to `filename` inside it.

`scrape_categories` loops over the catalog; for each category it waits,
calls `scraper.search(product)` and saves the resulting dataframe; any
exception raised by the body is caught, logged, and the loop proceeds to
the next category.  A category is modelled by its name together with the
outcome of its search: `Except.error` is a raising search (for example a
page-load timeout), `Except.ok recs` a search returning the list of
scraped records. -/

/-- One scraped product record, as one dataframe row. -/
abbrev Rec : Type := List String

/-- The filesystem as `save_to_csv` touches it: the directories created so
far and the CSV files written, each with the rows it holds.  Paths are
segment lists. -/
structure FS where
  dirs : List (List String)
  files : List (List String × List Rec)
deriving DecidableEq

/-- The empty filesystem. -/
def emptyFS : FS := ⟨[], []⟩

/-- Function `save_to_csv` of `run_scraping.py`: a no-op for an empty dataframe,
otherwise create the shop/day directory and write the file into it. -/
def saveToCsv (shopName : String) (df : List Rec)
    (filepath filename todayStr : String) (fs : FS) : FS :=
  if df.length < 1 then fs
  else
    { dirs := [filepath, shopName, todayStr] :: fs.dirs,
      files := ([filepath, shopName, todayStr, filename], df) :: fs.files }

/-- The per-category loop of `scrape_categories`: a raising search is
caught and logged and the loop continues; a returning search has its
records saved. -/
def scrapeCategories (shopName filepath todayStr : String) :
    List (String × Except String (List Rec)) → FS → FS
  | [], fs => fs
  | (name, Except.ok recs) :: rest, fs =>
      scrapeCategories shopName filepath todayStr rest
        (saveToCsv shopName recs filepath (name ++ ".csv") todayStr fs)
  | (_, Except.error _) :: rest, fs =>
      scrapeCategories shopName filepath todayStr rest fs

/-- The failure-isolation scenario: the search for `Süt` raises a
page-load timeout, `Pirinç` and `Sucuk` succeed. -/
def scenarioCats : List (String × Except String (List Rec)) :=
  [("Süt", Except.error "PageLoadTimeout"),
   ("Pirinç", Except.ok [["Pirinç 1kg", "42,50"]]),
   ("Sucuk", Except.ok [["Sucuk 500g", "250,00"]])]

/-! ## Anti-bot scraper initialisation and the main shop loop

`AdvancedBaseScraper.__init__` reads `os.getenv('CUSTOM_PROXY')`; only when
it is set does it assign `shop_id`, `shop_name` and `base_url` on the
instance — when it is unset it merely logs an error, leaving those
attributes unassigned.  The subclass constructor
(`OnurmarketScraper.__init__`) then evaluates
`f"{self.base_url}{self.search_string}%s"`, which raises `AttributeError`
when `base_url` was never assigned.  `main` of `run_scraping.py` calls
`get_scraper` inside its shop loop with no surrounding `try`, so such an
exception aborts the whole run.  An `Option` field of the scraper state is
`none` when the Python attribute was never assigned. -/

/-- A raised Python exception relevant to the embedded code. -/
inductive PyErr : Type
  | attributeError
deriving DecidableEq

/-- The instance state `AdvancedBaseScraper.__init__` leaves behind. -/
structure AdvScraperState where
  proxy : Option String
  shop_id : Option Nat
  shop_name : Option String
  base_url : Option String
deriving DecidableEq

/-- Constructor `AdvancedBaseScraper.__init__`: with a configured proxy all attributes
are assigned; without one, only `proxy` (holding `None`) is. -/
def advancedBaseInit (proxyEnv : Option String) (shopId : Nat)
    (shopName baseUrl : String) : AdvScraperState :=
  match proxyEnv with
  | some p =>
      { proxy := some p, shop_id := some shopId,
        shop_name := some shopName, base_url := some baseUrl }
  | none =>
      { proxy := none, shop_id := none, shop_name := none, base_url := none }

/-- A fully constructed Onurmarket scraper. -/
structure OnurScraper where
  base : AdvScraperState
  search_url : String
deriving DecidableEq

/-- Constructor `OnurmarketScraper.__init__`: runs the base initialiser, then builds
`self.search_url` from `self.base_url` — reading an unassigned attribute
raises `AttributeError`. -/
def onurmarketInit (proxyEnv : Option String) (shopId : Nat)
    (shopName baseUrl : String) : Except PyErr OnurScraper :=
  let base := advancedBaseInit proxyEnv shopId shopName baseUrl
  match base.base_url with
  | none => Except.error PyErr.attributeError
  | some u =>
      Except.ok { base := base, search_url := u ++ "/Arama?1&kelime=" ++ "%s" }

/-- Which construction path the factory takes for a shop. -/
inductive ScraperKind : Type
  | basic
  | advanced
deriving DecidableEq

/-- The per-shop configuration entry of `shops.json` as `main` uses it. -/
structure ShopCfg where
  shop_name : String
  shop_id : Nat
  base_url : String
  scrape : Bool
  kind : ScraperKind
deriving DecidableEq

/-- A scraper instance returned by the factory. -/
inductive ScraperObj : Type
  | basic (shopName : String)
  | advanced (o : OnurScraper)
deriving DecidableEq

/-- Factory `get_scraper`: constructs the configured scraper class.  Basic
(webdriver) scrapers are modelled as constructing successfully; the
anti-bot path runs `OnurmarketScraper.__init__`. -/
def getScraper (proxyEnv : Option String) (cfg : ShopCfg) :
    Except PyErr ScraperObj :=
  match cfg.kind with
  | ScraperKind.basic => Except.ok (ScraperObj.basic cfg.shop_name)
  | ScraperKind.advanced =>
      match onurmarketInit proxyEnv cfg.shop_id cfg.shop_name cfg.base_url with
      | Except.error e => Except.error e
      | Except.ok o => Except.ok (ScraperObj.advanced o)

/-- The shop loop of `main` in `run_scraping.py`: skips shops with
`scrape` unset, and calls `get_scraper` with no enclosing `try` — an
exception raised there aborts the whole run.  The result lists the shops
that were processed. -/
def mainLoop (proxyEnv : Option String) : List ShopCfg → Except PyErr (List String)
  | [] => Except.ok []
  | cfg :: rest =>
      if cfg.scrape then
        match getScraper proxyEnv cfg with
        | Except.error e => Except.error e
        | Except.ok _ =>
            match mainLoop proxyEnv rest with
            | Except.error e => Except.error e
            | Except.ok names => Except.ok (cfg.shop_name :: names)
      else mainLoop proxyEnv rest

/-- The Onurmarket configuration: an enabled anti-bot shop. -/
def onurCfg : ShopCfg :=
  { shop_name := "Onurmarket", shop_id := 7,
    base_url := "https://www.onurmarket.com", scrape := true,
    kind := ScraperKind.advanced }

/-- The A101 configuration: an enabled plain-webdriver shop. -/
def a101Cfg : ShopCfg :=
  { shop_name := "A101", shop_id := 1,
    base_url := "https://www.a101.com.tr", scrape := true,
    kind := ScraperKind.basic }

/-! ## Price parsing (`MigrosScraper.get_prices`, `A101Scraper.get_prices`)

Python string operations are embedded structurally over `List Char` so
that concrete inputs evaluate inside proofs; `float` values are `ℚ`.
`str.replace` replaces non-overlapping occurrences left to right,
`str.strip` trims whitespace, `str.split(' ')` splits at every single
space, `float(...)` parses an optionally signed decimal numeral (raising —
here `none` — on anything else), and `round(x, 2)` rounds to two decimal
places. -/

/-- Python `str.replace`, fuelled: at least one character is consumed per step,
so `length + 1` fuel always suffices for a nonempty pattern. -/
def pyReplaceFuel (pat rep : List Char) : ℕ → List Char → List Char
  | _, [] => []
  | 0, cs => cs
  | fuel + 1, c :: cs =>
      if pat.isPrefixOf (c :: cs) then
        rep ++ pyReplaceFuel pat rep fuel ((c :: cs).drop pat.length)
      else
        c :: pyReplaceFuel pat rep fuel cs

/-- Python `s.replace(pat, rep)` for a nonempty pattern. -/
def pyReplace (pat rep cs : List Char) : List Char :=
  if pat = [] then cs else pyReplaceFuel pat rep (cs.length + 1) cs

/-- Python `pat in s` (substring containment). -/
def containsL (pat : List Char) : List Char → Bool
  | [] => pat.isPrefixOf []
  | c :: cs => pat.isPrefixOf (c :: cs) || containsL pat cs

/-- Python `s.strip()`: drop whitespace from both ends. -/
def pyStrip (cs : List Char) : List Char :=
  ((cs.dropWhile (·.isWhitespace)).reverse.dropWhile (·.isWhitespace)).reverse

/-- Python `s.split(c)` for a single-character separator: split at every
occurrence, keeping empty parts. -/
def splitOnChar (c : Char) : List Char → List (List Char)
  | [] => [[]]
  | x :: xs =>
      let r := splitOnChar c xs
      if x = c then [] :: r
      else
        match r with
        | [] => [[x]]
        | h :: t => (x :: h) :: t

/-- An unsigned digit string as a natural number; `none` when empty or
containing a non-digit. -/
def parseDigitsL (cs : List Char) : Option ℕ :=
  if cs = [] then none
  else if cs.all (·.isDigit) then
    some (cs.foldl (fun n c => 10 * n + (c.toNat - 48)) 0)
  else none

/-- The decimal shape `float(s)` accepts here, read off the characters:
the sign, the integer part, the fraction digits' value, and the number of
fraction digits.  `none` models the `ValueError` the enclosing `try` of
each parser catches. -/
def pyFloatParts (cs : List Char) : Option (Bool × ℕ × ℕ × ℕ) :=
  let t := pyStrip cs
  let sgn : Bool × List Char :=
    match t with
    | '-' :: rest => (true, rest)
    | _ => (false, t)
  match splitOnChar '.' sgn.2 with
  | [ip] => (parseDigitsL ip).map (fun n => (sgn.1, n, 0, 0))
  | [ip, fp] =>
      match parseDigitsL ip, parseDigitsL fp with
      | some n, some f => some (sgn.1, n, f, fp.length)
      | _, _ => none
  | _ => none

/-- The rational value of a parsed decimal. -/
def decValue (p : Bool × ℕ × ℕ × ℕ) : ℚ :=
  (if p.1 then (-1 : ℚ) else 1) * ((p.2.1 : ℚ) + (p.2.2.1 : ℚ) / (10 : ℚ) ^ p.2.2.2)

/-- Python `float(s)` on the decimal numerals the price parsers feed it:
optional surrounding whitespace, optional minus sign, integer part,
optional fractional part. -/
def pyFloat (cs : List Char) : Option ℚ := (pyFloatParts cs).map decValue

/-- The floor of a rational, computed on its numerator and denominator. -/
def ratFloor (q : ℚ) : ℤ := q.num.fdiv (q.den : ℤ)

/-- Python `round(x, 2)` on the rational price values (rounding to the
nearest hundredth; on the at-most-two-decimal numerals the parsers produce
it is the identity, so the tie-breaking mode is immaterial). -/
def round2 (q : ℚ) : ℚ := (ratFloor (q * 100 + 1 / 2) : ℚ) / 100

/-- The cleaning `MigrosScraper.get_prices` applies before looking for the
promotion marker: drop the decorative `İyi Fiyat` text, then the thousands
separators. -/
def migrosClean (s : String) : List Char :=
  pyReplace ['.'] [] (pyReplace "İyi Fiyat".toList [] s.toList)

/-- The fields `get_prices` indexes as `dummy_prices[0]` / `dummy_prices[1]`
in its promotion branch. -/
def moneyParts (s : String) : List (List Char) :=
  splitOnChar ' '
    (pyReplace [','] ['.']
      (pyStrip (pyReplace ['T', 'L'] []
        (pyReplace "Money ile".toList [] (migrosClean s)))))

/-- The promotion branch's last lines:
`price = round(float(dummy_prices[0]), 2)`,
`discount = round(float(dummy_prices[1]), 2)`, `return discount, price`,
with the enclosing `except` returning `(0.0, 0.0)` when either `float`
raised. -/
def pricesOfParts (p0v p1v : Option ℚ) : ℚ × ℚ :=
  match p0v, p1v with
  | some price, some discount => (round2 discount, round2 price)
  | _, _ => (0, 0)

/-- Method `MigrosScraper.get_prices`: returns `(discount_price, price)`.  With a
`Money ile` marker the two displayed prices are taken positionally; without
one the single price is returned twice; any parsing failure yields
`(0, 0)`. -/
def migrosGetPrices (s : String) : ℚ × ℚ :=
  if containsL "Money ile".toList (migrosClean s) then
    match moneyParts s with
    | p0 :: p1 :: _ => pricesOfParts (pyFloat p0) (pyFloat p1)
    | _ => (0, 0)
  else
    match pyFloat (pyReplace [','] ['.'] (pyStrip (pyReplace ['T', 'L'] [] (migrosClean s)))) with
    | some price => (round2 price, round2 price)
    | none => (0, 0)

/-- The numeral cleaning of `A101Scraper.get_prices`: strip, drop the `₺`
sign and the thousands separators, decimal comma to point, parse. -/
def a101Parse (t : List Char) : Option ℚ :=
  pyFloat (pyReplace [','] ['.'] (pyReplace ['.'] [] (pyReplace ['₺'] [] (pyStrip t))))

/-- Method `A101Scraper.get_prices` on the price section: `mainText` is the text
of the current-price span, `strikeHasContents` whether the struck-through
span has children, `strikeText` its text.  Returns
`(discount_price, regular_price)`; any parsing failure yields `(0, 0)`. -/
def a101GetPrices (mainText strikeText : String) (strikeHasContents : Bool) : ℚ × ℚ :=
  match a101Parse mainText.toList with
  | none => (0, 0)
  | some d0 =>
      if strikeHasContents then
        match a101Parse strikeText.toList with
        | none => (0, 0)
        | some r0 => (round2 d0, round2 r0)
      else (round2 d0, round2 d0)

/-! ## The classifier gate (`ProductClassifier`, classifier.py)

`__init__` assigns `self.session` and `self.transformer_tokenizer` only
when the model folder exists and loading succeeds; when the folder is
missing it merely logs "Prediction will default to True." and assigns
nothing.  `predict` begins with `if self.session and
self.transformer_tokenizer:` — reading a never-assigned attribute raises
`AttributeError`; when the attributes exist, a failing inference is caught
and the positive default `{"label": 1, "confidence": 0.0}` is returned.
`infer` stands for the tokenizer+ONNX inference: `some (label,
confidence)` on success, `none` when it raises. -/

/-- The classifier instance state after `ProductClassifier.__init__`. -/
structure ProductClassifier where
  hasSession : Bool
  hasTokenizer : Bool
  infer : String → Option (Int × ℚ)

/-- Constructor `ProductClassifier.__init__`: attributes are assigned only when the
model folder exists and loading succeeds (a load failure is caught after a
warning, leaving the attributes unassigned). -/
def initClassifier (modelFolderExists loadOk : Bool)
    (infer : String → Option (Int × ℚ)) : ProductClassifier :=
  if modelFolderExists && loadOk then ⟨true, true, infer⟩
  else ⟨false, false, infer⟩

/-- Method `ProductClassifier.predict`. -/
def predict (c : ProductClassifier) (text : String) : Except PyErr (Int × ℚ) :=
  if c.hasSession then
    if c.hasTokenizer then
      match c.infer text with
      | some r => Except.ok r
      | none => Except.ok (1, 0)
    else Except.error PyErr.attributeError
  else Except.error PyErr.attributeError

/-- An inference backend that fails on every call. -/
def failInfer : String → Option (Int × ℚ) := fun _ => none

/-- Function `filter_nonfood` of `run_scraping.py`: builds the 0/1 food-label column
by calling `predict` on every product name; it has no `try`, so a raising
`predict` propagates. -/
def filterNonfood (products : List String) (c : ProductClassifier) :
    Except PyErr (List Int) :=
  match products with
  | [] => Except.ok []
  | p :: ps =>
      match predict c p with
      | Except.error e => Except.error e
      | Except.ok r =>
          match filterNonfood ps c with
          | Except.error e => Except.error e
          | Except.ok ls => Except.ok ((if r.1 = 1 then 1 else 0) :: ls)

/-- The per-file body of `filtering_all_combined_files`: label the file's
products (each row modelled by its `Display_Name` value) and keep the rows
labelled food; an exception while processing the file is caught and the
file is left as it was. -/
def filterOneCombined (c : ProductClassifier) (rows : List String) : List String :=
  match filterNonfood rows c with
  | Except.error _ => rows
  | Except.ok ls =>
      (rows.zip ls).filterMap (fun rl => if rl.2 = 1 then some rl.1 else none)

/-- Function `filtering_all_combined_files`: apply the classifier gate to every
`combined.csv`, isolating failures per file. -/
def filteringAllCombinedFiles (files : List (List String))
    (c : ProductClassifier) : List (List String) :=
  files.map (filterOneCombined c)

theorem mem_dropDupAux {a : Row} :
    ∀ (l seen : List Row), a ∈ dropDupAux seen l ↔ a ∈ l ∧ a ∉ seen ∨ a ∈ seen ∧ a ∈ dropDupAux seen l := by
  intro l seen
  constructor
  · intro h
    by_cases hs : a ∈ seen
    · exact Or.inr ⟨hs, h⟩
    · left
      refine ⟨?_, hs⟩
      induction l generalizing seen with
      | nil => simp [dropDupAux] at h
      | cons r rs ih =>
        simp only [dropDupAux] at h
        by_cases hr : r ∈ seen
        · simp [hr] at h
          exact List.mem_cons_of_mem _ (ih seen h hs)
        · simp [hr] at h
          rcases h with h | h
          · simp [h]
          · by_cases har : a = r
            · simp [har]
            · refine List.mem_cons_of_mem _ (ih (r :: seen) h ?_)
              simp [har, hs]
  · intro h
    rcases h with ⟨hl, hs⟩ | ⟨_, h⟩
    · induction l generalizing seen with
      | nil => simp at hl
      | cons r rs ih =>
        simp only [dropDupAux]
        rcases List.mem_cons.mp hl with rfl | hmem
        · simp [hs]
        · by_cases hr : r ∈ seen
          · simpa [hr] using ih seen hmem hs
          · simp only [hr, if_false]
            by_cases har : a = r
            · simp [har]
            · exact List.mem_cons_of_mem _ (ih (r :: seen) hmem (by simp [har, hs]))
    · exact h

/-- Membership in `dropDuplicates` is membership in the input. -/
theorem mem_dropDuplicates {a : Row} {l : List Row} : a ∈ dropDuplicates l ↔ a ∈ l := by
  unfold dropDuplicates
  constructor
  · intro h
    rcases (mem_dropDupAux l []).mp h with ⟨h1, _⟩ | ⟨h1, _⟩
    · exact h1
    · simp at h1
  · intro h
    exact (mem_dropDupAux l []).mpr (Or.inl ⟨h, by simp⟩)

theorem nodup_dropDupAux :
    ∀ (l seen : List Row), (dropDupAux seen l).Nodup ∧ ∀ a ∈ dropDupAux seen l, a ∉ seen := by
  intro l
  induction l with
  | nil => intro seen; simp [dropDupAux]
  | cons r rs ih =>
    intro seen
    simp only [dropDupAux]
    by_cases hr : r ∈ seen
    · simpa [hr] using ih seen
    · simp only [hr, if_false]
      obtain ⟨hnd, hni⟩ := ih (r :: seen)
      refine ⟨List.nodup_cons.mpr ⟨fun hmem => ?_, hnd⟩, ?_⟩
      · exact hni r hmem (by simp)
      · intro a ha
        rcases List.mem_cons.mp ha with rfl | ha
        · exact hr
        · intro hseen
          exact hni a ha (List.mem_cons_of_mem _ hseen)

/-- The output of `dropDuplicates` has no duplicate rows. -/
theorem nodup_dropDuplicates (l : List Row) : (dropDuplicates l).Nodup :=
  (nodup_dropDupAux l []).1

/-- The merged table contains every row of either input. -/
theorem mem_mergeTable {a : Row} {existing new : List Row} :
    a ∈ mergeTable existing new ↔ a ∈ existing ∨ a ∈ new := by
  unfold mergeTable
  rw [mem_dropDuplicates, List.mem_append]

/-- A duplicate-free list of rows is no longer than any list containing it. -/
theorem length_le_of_nodup_subset {l m : List Row} (hnd : l.Nodup) (hsub : l ⊆ m) :
    l.length ≤ m.length :=
  (List.Nodup.subperm hnd hsub).length_le

/-- C1: merging a shop's consolidated dataset into an existing shop table is
additive at the row level — every row present in the table before the merge is
still present after the merge — and across two successive merges of the same
shop table the deduplicated row count is non-decreasing. -/
theorem merge_additive_and_monotone (t d1 d2 : List Row) :
    (∀ r ∈ t, r ∈ mergeTable t d1) ∧
      (mergeTable t d1).length ≤ (mergeTable (mergeTable t d1) d2).length := by
  constructor
  · intro r hr
    exact mem_mergeTable.mpr (Or.inl hr)
  · refine length_le_of_nodup_subset (nodup_dropDuplicates _) ?_
    intro r hr
    exact mem_mergeTable.mpr (Or.inl hr)

/-- C3 (counterexample): it is not the case that every crash mid-write
leaves the previously stored shop table unchanged.  With table `A101`
holding `[["x"]]`, crashing after the first primitive operation of the
merge write (the `DROP TABLE` that `if_exists='replace'` issues) leaves
the table absent. -/
theorem merge_crash_counterexample :
    ¬ ∀ k : ℕ,
        applyOps ((mergeOps "A101" [["x"]] [["y"]]).take k) exStore "A101"
          = exStore "A101" := by
  intro h
  exact absurd (h 1) (by decide)

/-- C3 (amended): the merged table is written in place by drop-recreate-insert
(`to_sql` with `if_exists='replace'`); no temporary location or rename is
used.  A merge that fails before issuing any write leaves the previous
table unchanged; a crash after the initial drop leaves the table absent;
a completed write stores the deduplicated union. -/
theorem merge_write_in_place (name : String) (old d : List Row) (st : Store)
    (h : st name = some old) :
    applyOps ((mergeOps name old d).take 0) st name = some old ∧
      applyOps ((mergeOps name old d).take 1) st name = none ∧
      applyOps (mergeOps name old d) st name = some (mergeTable old d) := by
  refine ⟨h, ?_, ?_⟩
  · simp [mergeOps, applyOps, applyOp]
  · simp [mergeOps, applyOps, applyOp]

/-- Rows whose key was already kept are dropped entirely. -/
theorem countP_dedupByKeyAux_mem {k : String} :
    ∀ (l : List PRow) (seen : List String), k ∈ seen →
      (dedupByKeyAux seen l).countP (fun r => r.1 == k) = 0 := by
  intro l
  induction l with
  | nil => intro seen _; simp [dedupByKeyAux]
  | cons r rs ih =>
    intro seen hk
    simp only [dedupByKeyAux]
    by_cases hr : r.1 ∈ seen
    · simpa [hr] using ih seen hk
    · have hrk : ¬ (r.1 == k) = true := by
        simp only [beq_iff_eq]
        intro h
        exact hr (h.symm ▸ hk)
      simp only [hr, if_false, List.countP_cons, hrk]
      simpa using ih (r.1 :: seen) (List.mem_cons_of_mem _ hk)

/-- In the keep-first deduplication, each key not yet seen survives with
multiplicity `min 1 (its multiplicity in the input)`. -/
theorem countP_dedupByKeyAux {k : String} :
    ∀ (l : List PRow) (seen : List String), k ∉ seen →
      (dedupByKeyAux seen l).countP (fun r => r.1 == k)
        = min 1 (l.countP (fun r => r.1 == k)) := by
  intro l
  induction l with
  | nil => intro seen _; simp [dedupByKeyAux]
  | cons r rs ih =>
    intro seen hk
    simp only [dedupByKeyAux]
    by_cases hr : r.1 ∈ seen
    · have hrk : ¬ (r.1 == k) = true := by
        simp only [beq_iff_eq]
        intro h
        exact hk (h ▸ hr)
      simp only [hr, if_true, List.countP_cons, hrk]
      simpa using ih seen hk
    · simp only [hr, if_false, List.countP_cons]
      by_cases hrk : r.1 = k
      · subst hrk
        have h0 : (dedupByKeyAux (r.1 :: seen) rs).countP (fun x => x.1 == r.1) = 0 :=
          countP_dedupByKeyAux_mem rs (r.1 :: seen) (List.mem_cons_self _ _)
        simp [h0]
      · have hbeq : ¬ (r.1 == k) = true := by simpa using hrk
        simp only [hbeq, if_false, Nat.add_zero]
        refine ih (r.1 :: seen) ?_
        simp only [List.mem_cons]
        rintro (h | h)
        · exact hrk h.symm
        · exact hk h

/-- Keep-first: the surviving row for a key is the first input row with that
key. -/
theorem find?_dedupByKeyAux {k : String} :
    ∀ (l : List PRow) (seen : List String), k ∉ seen →
      (dedupByKeyAux seen l).find? (fun r => r.1 == k)
        = l.find? (fun r => r.1 == k) := by
  intro l
  induction l with
  | nil => intro seen _; simp [dedupByKeyAux]
  | cons r rs ih =>
    intro seen hk
    simp only [dedupByKeyAux]
    by_cases hr : r.1 ∈ seen
    · have hrk : ¬ (r.1 == k) = true := by
        simp only [beq_iff_eq]
        intro h
        exact hk (h ▸ hr)
      simp only [hr, if_true, List.find?_cons, hrk]
      simpa [hrk] using ih seen hk
    · by_cases hrk : r.1 = k
      · subst hrk
        simp [hr, List.find?_cons]
      · have hbeq : ¬ (r.1 == k) = true := by simpa using hrk
        simp only [hr, if_false, List.find?_cons, hbeq]
        have hk2 : k ∉ r.1 :: seen := by
          simp only [List.mem_cons]
          rintro (h | h)
          · exact hrk h.symm
          · exact hk h
        simpa [hbeq] using ih (r.1 :: seen) hk2

/-- C2 (counterexample): the consolidator the current pipeline runs,
`combine_and_filter_csvs`, does not deduplicate — two per-category files
each containing the identical row with scraped product id `p-123`
consolidate to two rows with that id, not exactly one. -/
theorem consolidate_dedupe_counterexample :
    ((combineAndFilterCsvs [[pRow123], [pRow123]]).getD []).countP
        (fun r => r.1 == "p-123") = 2 ∧
      ¬ ((combineAndFilterCsvs [[pRow123], [pRow123]]).getD []).countP
          (fun r => r.1 == "p-123") = 1 := by
  constructor
  · decide
  · decide

/-- C2 (amended): `combine_and_deduplicate_csvs` concatenates and
deduplicates by the scraped product-id column keeping the first occurrence
(each present key survives exactly once, represented by the first input row
with that key), whereas `combine_and_filter_csvs`, the consolidator the
current pipeline invokes, returns the plain concatenation without
deduplicating. -/
theorem consolidators_behaviour (files : List (List PRow)) (h : files ≠ []) :
    (∀ k : String,
        ((combineAndDeduplicateCsvs files).getD []).countP (fun r => r.1 == k)
            = min 1 (files.flatten.countP (fun r => r.1 == k)) ∧
          ((combineAndDeduplicateCsvs files).getD []).find? (fun r => r.1 == k)
            = files.flatten.find? (fun r => r.1 == k)) ∧
      combineAndFilterCsvs files = some files.flatten := by
  have hne : ¬ files.isEmpty := by simpa using h
  refine ⟨fun k => ⟨?_, ?_⟩, by simp [combineAndFilterCsvs, hne]⟩
  · simp only [combineAndDeduplicateCsvs, hne, if_false, Option.getD_some, dedupByKey]
    exact countP_dedupByKeyAux files.flatten [] (by simp)
  · simp only [combineAndDeduplicateCsvs, hne, if_false, Option.getD_some, dedupByKey]
    exact find?_dedupByKeyAux files.flatten [] (by simp)

/-- Witness for C2's amended theorem: on the two scenario files the
deduplicating consolidator keeps exactly one `p-123` row. -/
theorem consolidators_behaviour_witness :
    ((combineAndDeduplicateCsvs [[pRow123], [pRow123]]).getD []).countP
        (fun r => r.1 == "p-123") = 1 := by
  have h := ((consolidators_behaviour [[pRow123], [pRow123]] (by simp)).1 "p-123").1
  simpa using h

/-- Witness for C3's amended theorem at the concrete store `exStore`. -/
theorem merge_write_in_place_witness :
    applyOps ((mergeOps "A101" [["x"]] [["y"]]).take 0) exStore "A101" = some [["x"]] ∧
      applyOps ((mergeOps "A101" [["x"]] [["y"]]).take 1) exStore "A101" = none ∧
      applyOps (mergeOps "A101" [["x"]] [["y"]]) exStore "A101"
        = some (mergeTable [["x"]] [["y"]]) :=
  merge_write_in_place "A101" [["x"]] [["y"]] exStore (by decide)

/-- Running the loop from poll `i` with the remembered previous count, when
the first poll from `i` on whose count equals its predecessor's is poll
`s`, stops there and returns that count. -/
theorem runScroll_stop (counts : ℕ → ℕ) :
    ∀ (fuel i s : ℕ), i ≤ s → counts s = prevCount counts s →
      (∀ j, i ≤ j → j < s → counts j ≠ prevCount counts j) →
      s - i < fuel →
      runScroll counts fuel i (prevCount counts i) = some (counts s) := by
  intro fuel
  induction fuel with
  | zero => intro i s _ _ _ hlt; omega
  | succ fuel ih =>
    intro i s his h1 h2 hlt
    simp only [runScroll]
    by_cases hstop : counts i = prevCount counts i
    · have heq : i = s := by
        by_contra hne
        exact h2 i le_rfl (lt_of_le_of_ne his hne) hstop
      subst heq
      simp [hstop]
    · have hlt2 : i < s := by
        rcases lt_or_eq_of_le his with h | h
        · exact h
        · exact absurd (h ▸ h1) hstop
      have hprev : prevCount counts (i + 1) = counts i := by
        simp [prevCount]
      have := ih (i + 1) s (by omega) h1 (fun j hj1 hj2 => h2 j (by omega) hj2) (by omega)
      rw [hprev] at this
      simp [hstop, this]

/-- C4 (counterexample): on the mock page whose poll sequence is
`[0, 5, 12, 12]` the loop does not return 12 elements — the initial
`last_article_count = 0` matches the first poll's count 0, so it stops at
the very first poll with 0 elements. -/
theorem scroll_sequence_counterexample :
    runScroll counts0512 10 0 0 = some 0 ∧
      ¬ runScroll counts0512 10 0 0 = some 12 := by
  constructor
  · decide
  · decide

/-- C4 (amended): the loop stops exactly at the first poll whose count
equals the previous poll's count, where the count previous to the first
poll is the initialisation value 0, and returns that poll's count.  On the
mock sequence `[0, 5, 12, 12]` it therefore stops at the first poll with 0
elements; on a sequence whose first poll is nonzero, such as
`[5, 12, 12]`, it stops at the first repeated value and returns 12. -/
theorem scroll_stops_at_first_repeat (counts : ℕ → ℕ) (fuel s : ℕ)
    (h1 : counts s = prevCount counts s)
    (h2 : ∀ j, j < s → counts j ≠ prevCount counts j)
    (h3 : s < fuel) :
    runScroll counts fuel 0 0 = some (counts s) := by
  have h := runScroll_stop counts fuel 0 s (Nat.zero_le s) h1
    (fun j _ hj => h2 j hj) (by omega)
  simpa [prevCount] using h

/-- Witness for C4's amended theorem: on the page `[5, 12, 12, ...]` the
first poll whose count equals its predecessor's is poll 2, and the loop
returns 12. -/
theorem scroll_stops_at_first_repeat_witness :
    runScroll counts512 4 0 0 = some (counts512 2) :=
  scroll_stops_at_first_repeat counts512 4 2 (by decide)
    (by decide) (by decide)

/-- If the loop ever stops, either the poll it started from already matched
the remembered count, or some poll's count equals its successor's. -/
theorem runScroll_some_cond (counts : ℕ → ℕ) :
    ∀ (fuel i last v : ℕ), runScroll counts fuel i last = some v →
      counts i = last ∨ ∃ j, counts (j + 1) = counts j := by
  intro fuel
  induction fuel with
  | zero => intro i last v h; simp [runScroll] at h
  | succ fuel ih =>
    intro i last v h
    simp only [runScroll] at h
    by_cases hstop : counts i = last
    · exact Or.inl hstop
    · simp only [hstop, if_false] at h
      rcases ih (i + 1) (counts i) v h with h1 | h1
      · exact Or.inr ⟨i, h1⟩
      · exact Or.inr h1

/-- From any starting point, a poll position at offset `d` whose successor
repeats it makes the loop stop within `d + 2` polls. -/
theorem runScroll_reaches (counts : ℕ → ℕ) :
    ∀ (d i last : ℕ), counts (i + d + 1) = counts (i + d) →
      (runScroll counts (d + 2) i last).isSome := by
  intro d
  induction d with
  | zero =>
    intro i last h
    simp only [runScroll]
    by_cases hstop : counts i = last
    · simp [hstop]
    · simp only [hstop, if_false]
      have : counts (i + 1) = counts i := by simpa using h
      simp [runScroll, this]
  | succ d ih =>
    intro i last h
    show (runScroll counts (d + 3) i last).isSome
    simp only [runScroll]
    by_cases hstop : counts i = last
    · simp [hstop]
    · simp only [hstop, if_false]
      have h2 : counts ((i + 1) + d + 1) = counts ((i + 1) + d) := by
        have e1 : (i + 1) + d = i + (d + 1) := by omega
        rw [e1]
        exact h
      exact ih (i + 1) (counts i) h2

/-- C5 (counterexample): on the page whose rendered-element count strictly
grows at every poll, the scroll loop of `A101Scraper.search` never
terminates — no amount of fuel makes it stop, so there is no iteration
cap bounding its runtime. -/
theorem scroll_no_cap_counterexample :
    ¬ ∃ fuel, (runScroll succCounts fuel 0 0).isSome := by
  rintro ⟨fuel, h⟩
  obtain ⟨v, hv⟩ := Option.isSome_iff_exists.mp h
  rcases runScroll_some_cond succCounts fuel 0 0 v hv with h1 | ⟨j, hj⟩
  · simp [succCounts] at h1
  · simp [succCounts] at hj

/-- The function `ratFloor` agrees with the mathematical floor. -/
theorem ratFloor_eq_floor (q : ℚ) : ratFloor q = ⌊q⌋ := by
  rw [Rat.floor_def]
  exact Int.fdiv_eq_ediv _ (by positivity)

/-- Python `round(x, 2)` is the identity on exact hundredths — in
particular on every value the price parsers produce from a two-decimal
numeral. -/
theorem round2_of_hundredths (n : ℤ) : round2 ((n : ℚ) / 100) = (n : ℚ) / 100 := by
  unfold round2
  have h1 : ((n : ℚ) / 100 * 100 + 1 / 2) = (n : ℚ) + 1 / 2 := by
    have h2 : (n : ℚ) / 100 * 100 = (n : ℚ) := div_mul_cancel₀ _ (by norm_num)
    rw [h2]
  rw [h1, ratFloor_eq_floor, Int.floor_int_add]
  have h3 : ⌊(1 : ℚ) / 2⌋ = 0 := by
    rw [Int.floor_eq_zero_iff]
    constructor <;> norm_num
  rw [h3]
  simp

/-- C8 (counterexample): `MigrosScraper.get_prices` does not enforce
`discount <= regular`.  On the displayed text
`" 100,00 TLMoney ile219,95 TL"` — a shelf price of 100 with a promotion
price of 219.95 — it returns the pair `(219.95, 100)`, whose discount
component exceeds its price component. -/
theorem migros_price_counterexample :
    migrosGetPrices " 100,00 TLMoney ile219,95 TL" = (4399 / 20, 100) ∧
      ¬ (migrosGetPrices " 100,00 TLMoney ile219,95 TL").1
          ≤ (migrosGetPrices " 100,00 TLMoney ile219,95 TL").2 := by
  have hc : containsL "Money ile".toList (migrosClean " 100,00 TLMoney ile219,95 TL") = true := by
    decide
  have hm : moneyParts " 100,00 TLMoney ile219,95 TL" = ["100.00".toList, "219.95".toList] := by
    decide
  have hq0 : pyFloatParts "100.00".toList = some (false, 100, 0, 2) := by decide
  have hq1 : pyFloatParts "219.95".toList = some (false, 219, 95, 2) := by decide
  have hp0 : pyFloat "100.00".toList = some 100 := by
    rw [pyFloat, hq0]
    simp [decValue]
  have hp1 : pyFloat "219.95".toList = some (4399 / 20) := by
    rw [pyFloat, hq1]
    simp [decValue]
    norm_num
  have e : migrosGetPrices " 100,00 TLMoney ile219,95 TL" = (4399 / 20, 100) := by
    unfold migrosGetPrices
    rw [hc, if_pos rfl, hm]
    show pricesOfParts (pyFloat "100.00".toList) (pyFloat "219.95".toList) = (4399 / 20, 100)
    rw [hp0, hp1]
    show (round2 (4399 / 20), round2 (100 : ℚ)) = (4399 / 20, 100)
    have hr1 : round2 ((4399 : ℚ) / 20) = 4399 / 20 := by
      have e1 : ((4399 : ℚ) / 20) = ((21995 : ℤ) : ℚ) / 100 := by norm_num
      rw [e1, round2_of_hundredths]
    have hr2 : round2 (100 : ℚ) = 100 := by
      have e2 : (100 : ℚ) = ((10000 : ℤ) : ℚ) / 100 := by norm_num
      rw [e2, round2_of_hundredths]
    rw [hr1, hr2]
  refine ⟨e, ?_⟩
  rw [e]
  norm_num

/-- C8 (amended): when no promotion is detected the parsers return an
equal pair — `MigrosScraper.get_prices` without a `Money ile` marker and
`A101Scraper.get_prices` with an empty struck-through span both yield
`discount_price = price` (including the `(0, 0)` parse-failure fallback).
When a promotion is present the two displayed prices are returned
positionally, with nothing enforcing `discount_price <= price`. -/
theorem price_parsers_no_promo_equal (s m st : String)
    (h : containsL "Money ile".toList (migrosClean s) = false) :
    (migrosGetPrices s).1 = (migrosGetPrices s).2 ∧
      (a101GetPrices m st false).1 = (a101GetPrices m st false).2 := by
  constructor
  · unfold migrosGetPrices
    rw [h, if_neg (by simp)]
    cases hE : pyFloat (pyReplace [','] ['.'] (pyStrip (pyReplace ['T', 'L'] [] (migrosClean s)))) <;>
      simp [hE]
  · unfold a101GetPrices
    cases hE : a101Parse m.toList <;> simp [hE]

/-- Witness for C8's amended theorem: `33,50 TL` carries no promotion
marker and `₺33,00` has an empty struck-through span; both parsers return
equal pairs. -/
theorem price_parsers_no_promo_equal_witness :
    (migrosGetPrices "33,50 TL").1 = (migrosGetPrices "33,50 TL").2 ∧
      (a101GetPrices "₺33,00" "" false).1 = (a101GetPrices "₺33,00" "" false).2 :=
  price_parsers_no_promo_equal "33,50 TL" "₺33,00" "" (by decide)

/-- When the attributes are assigned and every inference raises, each
`predict` call returns the caught-and-defaulted positive label. -/
theorem filterNonfood_ok_default (ps : List String) :
    filterNonfood ps (initClassifier true true failInfer)
      = Except.ok (ps.map fun _ => (1 : Int)) := by
  induction ps with
  | nil => rfl
  | cons p ps ih =>
    show (match predict (initClassifier true true failInfer) p with
      | Except.error e => Except.error e
      | Except.ok r =>
          match filterNonfood ps (initClassifier true true failInfer) with
          | Except.error e => Except.error e
          | Except.ok ls => Except.ok ((if r.1 = 1 then 1 else 0) :: ls)) = _
    rw [show predict (initClassifier true true failInfer) p = Except.ok (1, 0) from rfl, ih]
    simp

/-- Keeping the rows paired with an all-ones label column keeps every
row. -/
theorem zip_ones_filterMap (rows : List String) :
    ((rows.zip (rows.map fun _ => (1 : Int))).filterMap
      (fun rl => if rl.2 = 1 then some rl.1 else none)) = rows := by
  induction rows with
  | nil => rfl
  | cons r rs ih =>
    show r :: ((rs.zip (rs.map fun _ => (1 : Int))).filterMap
        (fun rl => if rl.2 = 1 then some rl.1 else none)) = r :: rs
    rw [ih]

/-- A file processed with the always-defaulting classifier is unchanged. -/
theorem filterOne_default (rows : List String) :
    filterOneCombined (initClassifier true true failInfer) rows = rows := by
  unfold filterOneCombined
  rw [filterNonfood_ok_default]
  exact zip_ones_filterMap rows

/-- A file processed with the missing-model classifier is unchanged: either
it is empty, or the first `predict` raises and the per-file handler keeps
the file as it was. -/
theorem filterOne_missing (rows : List String) :
    filterOneCombined (initClassifier false true failInfer) rows = rows := by
  cases rows with
  | nil => rfl
  | cons p ps => rfl

/-- C9: with the model folder missing, `predict` raises `AttributeError`
(its attributes were never assigned) instead of returning the documented
positive default; with the model loaded but every inference failing,
`predict` returns the positive default `{"label": 1, "confidence": 0.0}`.
In both situations the filtering step leaves every record in place — via
the caught default in the second case, but only via the per-file exception
handler in the first. -/
theorem classifier_gate_behaviour (files : List (List String)) :
    predict (initClassifier false true failInfer) "Süt" = Except.error PyErr.attributeError ∧
      predict (initClassifier true true failInfer) "Süt" = Except.ok (1, 0) ∧
      filteringAllCombinedFiles files (initClassifier true true failInfer) = files ∧
      filteringAllCombinedFiles files (initClassifier false true failInfer) = files := by
  refine ⟨rfl, rfl, ?_, ?_⟩
  · induction files with
    | nil => rfl
    | cons rows fs ih =>
      show filterOneCombined _ rows :: filteringAllCombinedFiles fs _ = rows :: fs
      rw [filterOne_default, ih]
  · induction files with
    | nil => rfl
    | cons rows fs ih =>
      show filterOneCombined _ rows :: filteringAllCombinedFiles fs _ = rows :: fs
      rw [filterOne_missing, ih]

/-- C5 (amended): the scroll loop has no iteration cap.  It terminates
precisely on those pages whose first poll reports 0 elements (matching the
initialisation value) or whose count sequence somewhere repeats across two
successive polls; in particular a page whose count strictly grows on every
poll keeps it looping forever. -/
theorem scroll_terminates_iff (counts : ℕ → ℕ) :
    (∃ fuel, (runScroll counts fuel 0 0).isSome) ↔
      counts 0 = 0 ∨ ∃ j, counts (j + 1) = counts j := by
  constructor
  · rintro ⟨fuel, h⟩
    obtain ⟨v, hv⟩ := Option.isSome_iff_exists.mp h
    exact runScroll_some_cond counts fuel 0 0 v hv
  · rintro (h | ⟨j, hj⟩)
    · exact ⟨1, by simp [runScroll, h]⟩
    · exact ⟨j + 2, runScroll_reaches counts j 0 0 (by simpa using hj)⟩

/-- Function `save_to_csv` only ever adds files. -/
theorem files_subset_saveToCsv (shopName : String) (df : List Rec)
    (filepath filename todayStr : String) (fs : FS) :
    ∀ f ∈ fs.files, f ∈ (saveToCsv shopName df filepath filename todayStr fs).files := by
  intro f hf
  unfold saveToCsv
  by_cases h : df.length < 1
  · simpa [h] using hf
  · simp only [h, if_false]
    exact List.mem_cons_of_mem _ hf

/-- The category loop only ever adds files. -/
theorem files_subset_scrapeCategories (shopName filepath todayStr : String) :
    ∀ (cats : List (String × Except String (List Rec))) (fs : FS),
      ∀ f ∈ fs.files, f ∈ (scrapeCategories shopName filepath todayStr cats fs).files := by
  intro cats
  induction cats with
  | nil => intro fs f hf; simpa [scrapeCategories] using hf
  | cons c rest ih =>
    intro fs f hf
    match c with
    | (name, Except.ok recs) =>
        exact ih _ f (files_subset_saveToCsv shopName recs filepath (name ++ ".csv") todayStr fs f hf)
    | (name, Except.error e) =>
        exact ih fs f hf

/-- C7: per-category failures are isolated.  Whatever other categories'
searches raise, every category whose search returns a nonempty record list
gets its per-category file written. -/
theorem category_failure_isolated (shopName filepath todayStr : String)
    (cats : List (String × Except String (List Rec))) (fs : FS)
    (name : String) (recs : List Rec)
    (hmem : (name, Except.ok recs) ∈ cats) (hne : recs ≠ []) :
    ([filepath, shopName, todayStr, name ++ ".csv"], recs)
      ∈ (scrapeCategories shopName filepath todayStr cats fs).files := by
  induction cats generalizing fs with
  | nil => simp at hmem
  | cons c rest ih =>
    rcases List.mem_cons.mp hmem with heq | hmem2
    · subst heq
      show ([filepath, shopName, todayStr, name ++ ".csv"], recs)
        ∈ (scrapeCategories shopName filepath todayStr rest
            (saveToCsv shopName recs filepath (name ++ ".csv") todayStr fs)).files
      refine files_subset_scrapeCategories shopName filepath todayStr rest _ _ ?_
      have hlen : ¬ recs.length < 1 := by
        cases recs with
        | nil => exact absurd rfl hne
        | cons a l => simp
      simp [saveToCsv, hlen]
    · match c with
      | (n2, Except.ok recs2) => exact ih _ hmem2
      | (n2, Except.error e2) => exact ih _ hmem2

/-- Witness for C7 on the Süt/Pirinç/Sucuk scenario: the Pirinç file is
written even though the Süt search raised. -/
theorem category_failure_isolated_witness :
    (["downloads", "A101", "2025-01-01", "Pirinç" ++ ".csv"], [["Pirinç 1kg", "42,50"]])
      ∈ (scrapeCategories "A101" "downloads" "2025-01-01" scenarioCats emptyFS).files :=
  category_failure_isolated "A101" "downloads" "2025-01-01" scenarioCats emptyFS
    "Pirinç" [["Pirinç 1kg", "42,50"]]
    (List.mem_cons_of_mem _ (List.mem_cons_self _ _)) (by decide)

/-- C10: persisting an empty result is a no-op — `save_to_csv` returns
before creating the output directory or writing any file — and every file
the function ever writes is nonempty. -/
theorem save_empty_noop (shopName : String) (df : List Rec)
    (filepath filename todayStr : String) (fs : FS) (h : df = []) :
    saveToCsv shopName df filepath filename todayStr fs = fs ∧
      ∀ (df2 : List Rec),
        ∀ f ∈ (saveToCsv shopName df2 filepath filename todayStr fs).files,
          f ∈ fs.files ∨ f.2 ≠ [] := by
  constructor
  · subst h
    simp [saveToCsv]
  · intro df2 f hf
    unfold saveToCsv at hf
    by_cases h2 : df2.length < 1
    · simp only [h2, if_true] at hf
      exact Or.inl hf
    · simp only [h2, if_false] at hf
      rcases List.mem_cons.mp hf with heq | hmem
      · right
        subst heq
        intro hnil
        have hd : df2 = [] := hnil
        rw [hd] at h2
        exact h2 (by simp)
      · exact Or.inl hmem

/-- Witness for C10: saving an empty dataframe leaves the empty filesystem
untouched. -/
theorem save_empty_noop_witness :
    saveToCsv "A101" [] "downloads" "Süt.csv" "2025-01-01" emptyFS = emptyFS ∧
      ∀ (df2 : List Rec),
        ∀ f ∈ (saveToCsv "A101" df2 "downloads" "Süt.csv" "2025-01-01" emptyFS).files,
          f ∈ emptyFS.files ∨ f.2 ≠ [] :=
  save_empty_noop "A101" [] "downloads" "Süt.csv" "2025-01-01" emptyFS rfl

/-- C6 (counterexample): with no proxy configured and the shop list
`[Onurmarket (anti-bot), A101 (plain)]`, the run does not skip Onurmarket
and continue — it aborts with the `AttributeError` raised while
constructing the Onurmarket scraper, and A101 is never processed. -/
theorem proxy_missing_counterexample :
    mainLoop none [onurCfg, a101Cfg] = Except.error PyErr.attributeError ∧
      ¬ ∃ names, mainLoop none [onurCfg, a101Cfg] = Except.ok names ∧ "A101" ∈ names := by
  refine ⟨rfl, ?_⟩
  rintro ⟨names, h, _⟩
  rw [show mainLoop none [onurCfg, a101Cfg] = Except.error PyErr.attributeError from rfl] at h
  exact Except.noConfusion h

/-- C6 (amended): when the proxy is unconfigured, the first enabled
anti-bot shop in the list makes the whole run abort with an
`AttributeError` (raised reading the never-assigned `base_url` in the
subclass constructor), regardless of the shops that follow it. -/
theorem proxy_missing_aborts_run (pre post : List ShopCfg) (cfg : ShopCfg)
    (hpre : ∀ c ∈ pre, c.kind = ScraperKind.basic ∨ c.scrape = false)
    (h1 : cfg.scrape = true) (h2 : cfg.kind = ScraperKind.advanced) :
    mainLoop none (pre ++ cfg :: post) = Except.error PyErr.attributeError := by
  induction pre with
  | nil =>
    have hg : getScraper none cfg = Except.error PyErr.attributeError := by
      unfold getScraper
      rw [h2]
      simp [onurmarketInit, advancedBaseInit]
    simp only [List.nil_append, mainLoop, h1, if_true, hg]
  | cons c pre ih =>
    have hrest := ih (fun x hx => hpre x (List.mem_cons_of_mem _ hx))
    rcases hpre c (List.mem_cons_self _ _) with hc | hc
    · by_cases hs : c.scrape
      · have hg : getScraper none c = Except.ok (ScraperObj.basic c.shop_name) := by
          unfold getScraper
          rw [hc]
        simp only [List.cons_append, mainLoop, hs, if_true, hg]
        simp [hrest]
      · simp only [List.cons_append, mainLoop, hs, if_false]
        exact hrest
    · simp only [List.cons_append, mainLoop, hc, Bool.false_eq_true, if_false]
      exact hrest

/-- Witness for C6's amended theorem: A101 first, then Onurmarket — the
run still aborts. -/
theorem proxy_missing_aborts_run_witness :
    mainLoop none ([a101Cfg] ++ onurCfg :: []) = Except.error PyErr.attributeError :=
  proxy_missing_aborts_run [a101Cfg] [] onurCfg (by decide) (by decide) (by decide)

end Sepet
